import Mathlib

/-!
Verification of the installation lifecycle and environment-validation subsystem
of the ComfyUI desktop app (artifyfun/desktop).

The definitions below are a shallow embedding of the TypeScript sources:
  - src/services/pythonImportVerifier.ts
  - src/main-process/comfyInstallation.ts
  - src/install/installationManager.ts and src/install/installWizard.ts
Host primitives (JSON.parse, filesystem probes, subprocess spawning, IPC) are
modelled as explicit parameters, so every function here is a pure function of
the code state plus an environment snapshot.
-/

namespace ComfyDesktop

/-- Install state persisted in the desktop config. An absent recorded state is
represented with Option none at use sites. -/
inductive InstallState where
  | started
  | installed
  | upgraded
  deriving DecidableEq, Repr

/-- Torch device selection carried by the install options and the config. -/
inductive TorchDeviceType where
  | cpu
  | cuda
  | rocm
  | mps
  deriving DecidableEq, Repr

/-! ## Import verifier (src/services/pythonImportVerifier.ts) -/

/-- JSON values, as produced by a successful JSON.parse call. -/
inductive Json where
  | null
  | bool (b : Bool)
  | num (n : Int)
  | str (s : String)
  | arr (items : List Json)
  | obj (fields : List (String × Json))

/-- Result reported by the Python verification script, after schema validation. -/
structure PythonValidationResult where
  success : Bool
  failed_imports : List String
  deriving DecidableEq, Repr

/-- Joi boolean in default convert mode: a JSON boolean, or the strings true and
false. -/
def joiBool : Json → Option Bool
  | .bool b => some b
  | .str s => if s = "true" then some true else if s = "false" then some false else none
  | _ => none

/-- Joi array of strings: every item must be a JSON string. -/
def joiStringArray : Json → Option (List String)
  | .arr items => items.mapM fun j => match j with | .str s => some s | _ => none
  | _ => none

/-- Validation against the Joi schema built by getPythonVerificationSchema: an
object with a required boolean field success and a required string-array field
failed_imports; unknown keys are rejected (Joi object default). Returns the
validation message on failure. -/
def getPythonVerificationSchema (j : Json) : Except String PythonValidationResult :=
  match j with
  | .obj fields =>
    match fields.lookup "success" with
    | none => .error "\"success\" is required"
    | some successValue =>
      match joiBool successValue with
      | none => .error "\"success\" must be a boolean"
      | some b =>
        match fields.lookup "failed_imports" with
        | none => .error "\"failed_imports\" is required"
        | some failedValue =>
          match joiStringArray failedValue with
          | none => .error "\"failed_imports\" must be an array of strings"
          | some xs =>
            if fields.all (fun kv => kv.1 == "success" || kv.1 == "failed_imports") then
              .ok { success := b, failed_imports := xs }
            else
              .error "unknown keys are not allowed"
  | _ => .error "\"value\" must be of type object"

/-- Discriminated union produced by interpretPythonValidationOutput. -/
inductive VerifyOutcome where
  | parseError
  | invalidFormat (message : String)
  | ok (value : PythonValidationResult)

/-- Mirrors interpretPythonValidationOutput: JSON.parse (modelled by the parse
argument, a host-library primitive) followed by Joi schema validation. A parse
failure is caught and classified, never rethrown. -/
def interpretPythonValidationOutput (parse : String → Option Json) (output : String) :
    VerifyOutcome :=
  match parse output with
  | none => .parseError
  | some parsedOutput =>
    match getPythonVerificationSchema parsedOutput with
    | .error msg => .invalidFormat msg
    | .ok v => .ok v

/-- A thrown JavaScript value: an Error instance carrying a message, or any other
value. -/
inductive JsError where
  | errorInstance (message : String)
  | other
  deriving DecidableEq, Repr

/-- Mirrors the catch branch: error instanceof Error gives error.message,
anything else gives the fixed fallback text. -/
def JsError.messageOf : JsError → String
  | .errorInstance m => m
  | .other => "Unknown verification error"

/-- Model of one runPythonCommandAsync call on a PythonExecutor: the text the
process callbacks deliver (stdout and stderr appended to one buffer in arrival
order, as the verifier does), and either an exit code or a thrown error. -/
structure PythonExecutor where
  emitted : String
  run : Except JsError Int

/-- Result of Python import verification returned to callers. -/
structure ImportVerificationResult where
  success : Bool
  error : Option String := none
  missingImports : Option (List String) := none
  deriving DecidableEq, Repr

/-- Mirrors runPythonImportVerifyScript. The Bool in the result records whether
the Python subprocess runner was invoked. -/
def runPythonImportVerifyScript (parse : String → Option Json) (pythonEnv : PythonExecutor)
    (importsToCheck : List String) : ImportVerificationResult × Bool :=
  if importsToCheck.length = 0 then
    ({ success := true }, false)
  else
    match pythonEnv.run with
    | .error e => ({ success := false, error := some e.messageOf }, true)
    | .ok exitCode =>
      match interpretPythonValidationOutput parse pythonEnv.emitted with
      | .parseError =>
        ({ success := false,
           error := some ("Python import verification failed with exit code " ++
             toString exitCode ++ ": " ++ pythonEnv.emitted) }, true)
      | .invalidFormat msg =>
        ({ success := false,
           error := some ("Invalid verification output format: " ++ msg) }, true)
      | .ok validatedOutput =>
        if validatedOutput.success then
          ({ success := true }, true)
        else
          ({ success := false,
             error := some ("Missing imports: " ++
               String.intercalate ", " validatedOutput.failed_imports),
             missingImports := some validatedOutput.failed_imports }, true)

/-! ## Installation data model (src/main-process/comfyInstallation.ts) -/

/-- Virtual environment, captured at construction from a base path and a device.
Modelled from the spec: the class body of VirtualEnvironment is not among the
sources here (only its construction sites are); per the spec the environment
holds derived paths (interpreter executable, package-manager executable)
computed from basePath plus platform, never persisted independently. -/
structure VirtualEnvironment where
  basePath : String
  device : Option TorchDeviceType
  deriving DecidableEq, Repr

/-- Modelled from the spec: the environment directory derived from the base
path. -/
def VirtualEnvironment.venvPath (venv : VirtualEnvironment) : String :=
  venv.basePath ++ "/.venv"

/-- Modelled from the spec: interpreter executable path computed from basePath
plus platform. -/
def VirtualEnvironment.pythonInterpreterPath (isWin32 : Bool) (venv : VirtualEnvironment) :
    String :=
  if isWin32 then venv.venvPath ++ "/Scripts/python.exe" else venv.venvPath ++ "/bin/python"

/-- Modelled from the spec: package-manager executable path computed from
basePath plus platform. -/
def VirtualEnvironment.uvPath (isWin32 : Bool) (venv : VirtualEnvironment) : String :=
  if isWin32 then venv.venvPath ++ "/Scripts/uv.exe" else venv.venvPath ++ "/bin/uv"

/-- Per-check status strings used by the validation record. -/
inductive ValidationState where
  | ok
  | error
  | skipped
  deriving DecidableEq, Repr

/-- Mirrors the InstallValidation record: progress flag, mirrored install state,
and one optional status per check. A per-check field that is none was never
assigned by validate. -/
structure InstallValidation where
  inProgress : Bool
  installState : Option InstallState
  basePath : Option ValidationState := none
  venvDirectory : Option ValidationState := none
  pythonInterpreter : Option ValidationState := none
  uv : Option ValidationState := none
  pythonPackages : Option ValidationState := none
  git : Option ValidationState := none
  vcRedist : Option ValidationState := none
  deriving DecidableEq, Repr

/-- Mirrors the hasIssues getter, which scans every value of the validation
record for the string error. The inProgress flag is a boolean and installState
ranges over started, installed and upgraded, so only the seven per-check fields
can ever contribute. -/
def InstallValidation.hasIssues (v : InstallValidation) : Bool :=
  v.basePath == some .error || v.venvDirectory == some .error ||
  v.pythonInterpreter == some .error || v.uv == some .error ||
  v.pythonPackages == some .error || v.git == some .error || v.vcRedist == some .error

/-- Mirrors the ComfyInstallation object: recorded state, base path, selected
device, and the exclusively owned virtual environment. -/
structure ComfyInstallation where
  state : Option InstallState
  basePath : String
  device : Option TorchDeviceType
  virtualEnvironment : VirtualEnvironment
  deriving DecidableEq, Repr

/-- Mirrors the ComfyInstallation constructor: stores state, basePath and
device, and instantiates the virtual environment from basePath and device. -/
def ComfyInstallation.create (state : Option InstallState) (basePath : String)
    (device : Option TorchDeviceType) : ComfyInstallation :=
  { state := state, basePath := basePath, device := device,
    virtualEnvironment := { basePath := basePath, device := device } }

/-- Mirrors the basePath setter: stores the value and re-instantiates the
virtual environment with the value and the current device. -/
def ComfyInstallation.setBasePath (inst : ComfyInstallation) (value : String) :
    ComfyInstallation :=
  { inst with
    basePath := value,
    virtualEnvironment := { basePath := value, device := inst.device } }

/-- Mirrors the isValid getter on ComfyInstallation, as a function of the
current state and validation record it reads. -/
def isValid (state : Option InstallState) (v : InstallValidation) : Bool :=
  state == some .installed && !v.hasIssues

/-- Result of ComfyServerConfig.readBasePathFromConfig. -/
inductive ReadBasePathResult where
  | success (path : String)
  | invalid
  | notFound
  | error
  deriving DecidableEq, Repr

/-- Filesystem and host facts consumed by one validate pass. Each field models
one asynchronous probe the source awaits; probes are keyed by path so that two
calls with equal arguments agree, matching a fixed filesystem snapshot. -/
structure SystemEnv where
  serverConfigExists : Bool
  readBasePath : ReadBasePathResult
  pathAccessible : String → Bool
  venvExists : String → Bool
  canExecute : String → Bool
  hasRequirements : String → Except String Bool
  gitHelpOk : Bool
  isWin32 : Bool
  vcRedistDllAccessible : Bool

/-- Mirrors loadBasePath: reads the base path from YAML config; on success it
assigns the basePath setter and returns the path; invalid and notFound return
none; a read error is thrown. -/
def ComfyInstallation.loadBasePath (env : SystemEnv) (inst : ComfyInstallation) :
    Except String (ComfyInstallation × Option String) :=
  match env.readBasePath with
  | .success path => .ok (inst.setBasePath path, some path)
  | .invalid => .ok (inst, none)
  | .notFound => .ok (inst, none)
  | .error => .error "Unable to read the YAML configuration file."

/-- Mirrors validate: builds the validation record step by step and returns the
updated installation together with the final record (equal to the last emitted
snapshot). Throws exactly when loadBasePath throws. -/
def ComfyInstallation.validate (env : SystemEnv) (inst : ComfyInstallation) :
    Except String (ComfyInstallation × InstallValidation) := do
  let upgradedState : Option InstallState :=
    if inst.state.isNone && env.serverConfigExists then some .upgraded else inst.state
  let v : InstallValidation := { inProgress := true, installState := upgradedState }
  let (inst, basePathOpt) ← inst.loadBasePath env
  let v :=
    match basePathOpt with
    | some basePath =>
      if env.pathAccessible basePath then
        let v := { v with basePath := some ValidationState.ok }
        let venv : VirtualEnvironment := { basePath := basePath, device := inst.device }
        if env.venvExists venv.venvPath then
          let v := { v with venvDirectory := some ValidationState.ok }
          let pyStatus : ValidationState :=
            if env.canExecute (venv.pythonInterpreterPath env.isWin32) then .ok else .error
          let v := { v with pythonInterpreter := some pyStatus }
          if env.canExecute (venv.uvPath env.isWin32) then
            let v := { v with uv := some ValidationState.ok }
            let pkgStatus : ValidationState :=
              match env.hasRequirements venv.venvPath with
              | .ok true => .ok
              | .ok false => .error
              | .error _ => .error
            { v with pythonPackages := some pkgStatus }
          else
            { v with uv := some ValidationState.error }
        else
          { v with venvDirectory := some ValidationState.error }
      else
        { v with basePath := some ValidationState.error }
    | none => { v with basePath := some ValidationState.error }
  let gitStatus : ValidationState := if env.gitHelpOk then .ok else .error
  let v := { v with git := some gitStatus }
  let vcRedistStatus : ValidationState :=
    if env.isWin32 then (if env.vcRedistDllAccessible then .ok else .error) else .skipped
  let v := { v with vcRedist := some vcRedistStatus }
  let v := { v with inProgress := false }
  return (inst, v)

/-- A parsed JSON value that lacks a success member: either it is not an object
at all, or the object has no key named success. -/
def lacksSuccessField : Json → Bool
  | .obj fields => (fields.lookup "success").isNone
  | _ => true

/-- Installation objects reachable through the operations the sources perform on
a ComfyInstallation: construction, and assignment of the basePath setter (which
is also what loadBasePath uses). No operation in the sources reassigns the
device after construction. -/
inductive ReachableInstallation : ComfyInstallation → Prop where
  | created (state : Option InstallState) (basePath : String)
      (device : Option TorchDeviceType) :
      ReachableInstallation (ComfyInstallation.create state basePath device)
  | assignedBasePath (inst : ComfyInstallation) (value : String) :
      ReachableInstallation inst → ReachableInstallation (inst.setBasePath value)

/-- Concrete host snapshot used by witness instantiations: no recorded server
config, no base path in the YAML config, nothing accessible or executable. -/
def emptySystemEnv : SystemEnv where
  serverConfigExists := false
  readBasePath := .notFound
  pathAccessible := fun _ => false
  venvExists := fun _ => false
  canExecute := fun _ => false
  hasRequirements := fun _ => .ok false
  gitHelpOk := false
  isWin32 := false
  vcRedistDllAccessible := false

/-- Concrete installation with recorded state installed, used by witnesses. -/
def instInstalled : ComfyInstallation :=
  ComfyInstallation.create (some .installed) "/base" none

/-- Validation record produced by validate on emptySystemEnv and instInstalled. -/
def vEmptyInstalled : InstallValidation :=
  { inProgress := false, installState := some .installed,
    basePath := some .error, git := some .error, vcRedist := some .skipped }

/-- Concrete host snapshot where only the base path resolves and is accessible,
and git is on the PATH. -/
def baseOnlySystemEnv : SystemEnv where
  serverConfigExists := false
  readBasePath := .success "/bp"
  pathAccessible := fun _ => true
  venvExists := fun _ => false
  canExecute := fun _ => false
  hasRequirements := fun _ => .ok false
  gitHelpOk := true
  isWin32 := false
  vcRedistDllAccessible := false

/-- Concrete installation whose stored base path differs from the configured
one, used by the idempotence witness. -/
def instFresh : ComfyInstallation :=
  ComfyInstallation.create (some .installed) "/old" (some .cpu)

/-- The installation above after validate assigned the configured base path. -/
def instFreshMoved : ComfyInstallation :=
  instFresh.setBasePath "/bp"

/-- Validation record produced by validate on baseOnlySystemEnv and instFresh. -/
def vBaseOnly : InstallValidation :=
  { inProgress := false, installState := some .installed,
    basePath := some .ok, venvDirectory := some .error,
    git := some .ok, vcRedist := some .skipped }

/-! ## Installation orchestration (src/install/installationManager.ts and
src/install/installWizard.ts) -/

/-- Persisted desktop config document (the key-value store behind
useDesktopConfig). -/
structure DesktopConfig where
  installState : Option InstallState := none
  basePath : Option String := none
  selectedDevice : Option TorchDeviceType := none
  detectedGpu : Option String := none
  migrateCustomNodesFrom : Option String := none
  deriving DecidableEq, Repr

/-- Mirrors ComfyInstallation.fromConfig: an installation object is produced
only when both a recorded state and a truthy (non-empty) base path are present
in the config. -/
def ComfyInstallation.fromConfig (config : DesktopConfig) : Option ComfyInstallation :=
  match config.installState, config.basePath with
  | some state, some basePath =>
    if basePath ≠ "" then
      some (ComfyInstallation.create (some state) basePath config.selectedDevice)
    else none
  | _, _ => none

/-- Install options received over the INSTALL_COMFYUI channel. Modelled from
the spec: the preload declaration of InstallOptions is not among the sources;
the fields follow the start-install request of the UI channel contract. The
installPath field is the base path the wizard exposes. -/
structure InstallOptions where
  installPath : String
  device : Option TorchDeviceType := none
  migrationSourcePath : Option String := none
  migrationItemIds : List String := []
  deriving DecidableEq, Repr

/-- Truthiness of the migration source: present and non-empty. -/
def InstallOptions.hasMigrationSource (options : InstallOptions) : Bool :=
  match options.migrationSourcePath with
  | some s => s != ""
  | none => false

/-- Result of the validateHardware probe when it does not throw. -/
structure HardwareValidation where
  isValid : Bool
  gpu : Option String := none
  deriving DecidableEq, Repr

/-- Outcomes of the asynchronous steps of the fresh-install flow. An error
value models the step throwing; installOptions none models the
INSTALL_COMFYUI message never arriving (the flow then waits forever). -/
structure FreshInstallEnv where
  hardware : Except String HardwareValidation
  loadRenderer : Except String Unit
  installOptions : Option InstallOptions
  createComfyDirectories : Except String Unit
  migrateUserFiles : Except String Unit
  initializeSettings : Except String Unit
  initializeModelPaths : Except String Unit

/-- Mirrors InstallWizard.install: directory creation, user-file migration when
selected, settings initialization and model-path configuration, in order; the
first throwing step aborts the rest. -/
def installWizardInstall (fe : FreshInstallEnv) (options : InstallOptions) :
    Except String Unit := do
  fe.createComfyDirectories
  if options.hasMigrationSource && options.migrationItemIds.contains "user_files" then
    fe.migrateUserFiles
  fe.initializeSettings
  fe.initializeModelPaths

/-- Result of an orchestration entry point: a returned installation, a thrown
error, or a flow that is awaiting an external event and never completes. -/
inductive FlowOutcome (α : Type) where
  | ok (value : α)
  | threw (message : String)
  | stalled
  deriving DecidableEq, Repr

/-- Mirrors InstallationManager.freshInstall: persist state started, run the
hardware probe, load the welcome (or not-supported) renderer, await install
options, persist basePath and selectedDevice, run the wizard, set the
custom-node migration flag, then construct the installation and persist state
installed. -/
def freshInstall (fe : FreshInstallEnv) (config : DesktopConfig) :
    DesktopConfig × FlowOutcome ComfyInstallation :=
  let config := { config with installState := some InstallState.started }
  match fe.hardware with
  | .error e => (config, .threw e)
  | .ok hardware =>
    let config := { config with detectedGpu :=
      match hardware.gpu with
      | some gpu => some gpu
      | none => config.detectedGpu }
    match fe.loadRenderer with
    | .error e => (config, .threw e)
    | .ok _ =>
      match fe.installOptions with
      | none => (config, .stalled)
      | some options =>
        let config := { config with basePath := some options.installPath }
        let config := { config with selectedDevice :=
          match options.device with
          | some device => some device
          | none => config.selectedDevice }
        match installWizardInstall fe options with
        | .error e => (config, .threw e)
        | .ok _ =>
          let config := { config with migrateCustomNodesFrom :=
            if options.hasMigrationSource && options.migrationItemIds.contains "custom_nodes"
            then options.migrationSourcePath
            else config.migrateCustomNodesFrom }
          let installation :=
            ComfyInstallation.create (some .installed) options.installPath options.device
          let config := { config with installState := some InstallState.installed }
          (config, .ok installation)

/-- Mirrors ComfyInstallation.upgradeConfig: persist the base path when its
check passed, then persist state installed. -/
def upgradeConfig (config : DesktopConfig) (installation : ComfyInstallation)
    (v : InstallValidation) : DesktopConfig :=
  let config :=
    if v.basePath = some ValidationState.ok then
      { config with basePath := some installation.basePath }
    else config
  { config with installState := some InstallState.installed }

/-- Mirrors InstallationManager.ensureInstalled against a fixed host snapshot.
With no intervening filesystem change, re-validation inside the resolution
loop always reproduces the same record (idempotence), so when issues are
present the loop never observes a valid installation and waits forever; that
is modelled as the stalled outcome. -/
def ensureInstalled (fe : FreshInstallEnv) (env : SystemEnv) (config : DesktopConfig) :
    DesktopConfig × FlowOutcome ComfyInstallation :=
  match ComfyInstallation.fromConfig config with
  | none => freshInstall fe config
  | some installation =>
    match installation.validate env with
    | .error e => (config, .threw e)
    | .ok (installation, v) =>
      if v.installState = some InstallState.started then freshInstall fe config
      else
        let upgraded := v.installState = some InstallState.upgraded
        let config := if upgraded then upgradeConfig config installation v else config
        let installation :=
          if upgraded then { installation with state := some InstallState.installed }
          else installation
        if v.hasIssues then (config, .stalled)
        else (config, .ok installation)

/-- Every step of the fresh-install flow completes without throwing: hardware
probe, renderer load, option receipt, and the wizard steps (directory
creation, user-file migration when selected, settings initialization,
model-path configuration). -/
def freshInstallSucceeds (fe : FreshInstallEnv) : Prop :=
  (∃ hardware, fe.hardware = .ok hardware) ∧ fe.loadRenderer = .ok () ∧
  ∃ options, fe.installOptions = some options ∧
    installWizardInstall fe options = .ok ()

/-- Fresh-install environment where every step succeeds, used by the C4
witness. -/
def allOkFreshInstallEnv : FreshInstallEnv where
  hardware := .ok { isValid := true, gpu := some "TestGPU" }
  loadRenderer := .ok ()
  installOptions := some { installPath := "/new" }
  createComfyDirectories := .ok ()
  migrateUserFiles := .ok ()
  initializeSettings := .ok ()
  initializeModelPaths := .ok ()

/-! ## Theorems about the import verifier -/

/-- C6: For an empty list of requested imports, runPythonImportVerifyScript
returns exactly a record with success true and nothing else set, and never
invokes the Python subprocess runner. -/
theorem runPythonImportVerifyScript_empty_imports
    (parse : String → Option Json) (pythonEnv : PythonExecutor) :
    runPythonImportVerifyScript parse pythonEnv [] =
      ({ success := true, error := none, missingImports := none }, false) := rfl

/-- C7: For every non-empty import list, when the subprocess output does not
parse as JSON and the subprocess exits with a non-zero code, the verifier
returns success false with an error message string that contains both the raw
collected output and the exit code. -/
theorem runPythonImportVerifyScript_parse_error_message
    (parse : String → Option Json) (pythonEnv : PythonExecutor)
    (importsToCheck : List String) (exitCode : Int)
    (hne : importsToCheck ≠ [])
    (hparse : parse pythonEnv.emitted = none)
    (hrun : pythonEnv.run = .ok exitCode)
    (_hec : exitCode ≠ 0) :
    ∃ msg,
      runPythonImportVerifyScript parse pythonEnv importsToCheck =
        ({ success := false, error := some msg, missingImports := none }, true) ∧
      pythonEnv.emitted.data <:+: msg.data ∧
      (toString exitCode).data <:+: msg.data := by
  refine ⟨"Python import verification failed with exit code " ++
    toString exitCode ++ ": " ++ pythonEnv.emitted, ?_, ?_, ?_⟩
  · rw [runPythonImportVerifyScript, if_neg (by simpa using hne)]
    rw [hrun, interpretPythonValidationOutput, hparse]
  · exact ⟨("Python import verification failed with exit code " ++
      toString exitCode ++ ": ").data, [], by simp⟩
  · exact ⟨"Python import verification failed with exit code ".data,
      (": " ++ pythonEnv.emitted).data, by simp⟩

/-- C7 witness: concrete run with non-JSON output and exit code 1. -/
theorem runPythonImportVerifyScript_parse_error_message_witness :
    ∃ msg,
      runPythonImportVerifyScript (fun _ => none) ⟨"garbage output", .ok 1⟩ ["yaml"] =
        ({ success := false, error := some msg, missingImports := none }, true) ∧
      ("garbage output" : String).data <:+: msg.data ∧
      (toString (1 : Int)).data <:+: msg.data :=
  runPythonImportVerifyScript_parse_error_message (fun _ => none)
    ⟨"garbage output", .ok 1⟩ ["yaml"] 1 (by decide) rfl rfl (by decide)

/-- C8: For every non-empty import list, when the subprocess output parses as
JSON but the parsed value lacks the required success field, the schema
validation fails with a message, the outcome is classified invalid format, and
the verifier returns a value (it never throws) with success false and an error
carrying the validation message. -/
theorem runPythonImportVerifyScript_invalid_format
    (parse : String → Option Json) (pythonEnv : PythonExecutor)
    (importsToCheck : List String) (exitCode : Int) (j : Json)
    (hne : importsToCheck ≠ [])
    (hrun : pythonEnv.run = .ok exitCode)
    (hparse : parse pythonEnv.emitted = some j)
    (hlack : lacksSuccessField j = true) :
    ∃ msg,
      getPythonVerificationSchema j = .error msg ∧
      runPythonImportVerifyScript parse pythonEnv importsToCheck =
        ({ success := false,
           error := some ("Invalid verification output format: " ++ msg),
           missingImports := none }, true) := by
  have hschema : ∃ msg, getPythonVerificationSchema j = .error msg := by
    match j with
    | .obj fields =>
      simp only [lacksSuccessField, Option.isNone_iff_eq_none] at hlack
      exact ⟨"\"success\" is required", by rw [getPythonVerificationSchema, hlack]⟩
    | .null | .bool _ | .num _ | .str _ | .arr _ =>
      exact ⟨"\"value\" must be of type object", rfl⟩
  obtain ⟨msg, hmsg⟩ := hschema
  refine ⟨msg, hmsg, ?_⟩
  rw [runPythonImportVerifyScript, if_neg (by simpa using hne)]
  simp only [hrun, interpretPythonValidationOutput, hparse, hmsg]

/-- C8 witness: concrete run whose output parses to an object with no success
key. -/
theorem runPythonImportVerifyScript_invalid_format_witness :
    ∃ msg,
      getPythonVerificationSchema (Json.obj []) = .error msg ∧
      runPythonImportVerifyScript (fun _ => some (Json.obj []))
          ⟨"", .ok 0⟩ ["yaml"] =
        ({ success := false,
           error := some ("Invalid verification output format: " ++ msg),
           missingImports := none }, true) :=
  runPythonImportVerifyScript_invalid_format (fun _ => some (Json.obj []))
    ⟨"", .ok 0⟩ ["yaml"] 0 (Json.obj []) (by decide) rfl rfl rfl

/-- C10: runPythonImportVerifyScript is total over subprocess failures: for
every non-empty import list, if the subprocess runner throws, the function
still returns success false together with the thrown message when the thrown
value is an Error instance, and a fixed fallback text otherwise. -/
theorem runPythonImportVerifyScript_catches_thrown_errors
    (parse : String → Option Json) (pythonEnv : PythonExecutor)
    (importsToCheck : List String) (e : JsError)
    (hne : importsToCheck ≠ [])
    (hrun : pythonEnv.run = .error e) :
    runPythonImportVerifyScript parse pythonEnv importsToCheck =
      ({ success := false, error := some e.messageOf, missingImports := none }, true) := by
  rw [runPythonImportVerifyScript, if_neg (by simpa using hne), hrun]

/-- C10 witness: a thrown Error with message boom is reported as a returned
error value, mirroring the unit test in the repository. -/
theorem runPythonImportVerifyScript_catches_thrown_errors_witness :
    runPythonImportVerifyScript (fun _ => none)
        ⟨"", .error (.errorInstance "boom")⟩ ["yaml"] =
      ({ success := false, error := some "boom", missingImports := none }, true) :=
  runPythonImportVerifyScript_catches_thrown_errors (fun _ => none)
    ⟨"", .error (.errorInstance "boom")⟩ ["yaml"] (.errorInstance "boom")
    (by decide) rfl

/-! ## Theorems about the validation engine and data model -/

/-- C1: For every ComfyInstallation, isValid is true if and only if its state
equals installed and no field of its current validation record has the value
error; in particular, for any installation whose state is not installed,
isValid is false regardless of which validation fields are set. -/
theorem isValid_iff_installed_and_no_error_field (state : Option InstallState)
    (v : InstallValidation) :
    (isValid state v = true ↔
      (state = some InstallState.installed ∧
        v.basePath ≠ some ValidationState.error ∧
        v.venvDirectory ≠ some ValidationState.error ∧
        v.pythonInterpreter ≠ some ValidationState.error ∧
        v.uv ≠ some ValidationState.error ∧
        v.pythonPackages ≠ some ValidationState.error ∧
        v.git ≠ some ValidationState.error ∧
        v.vcRedist ≠ some ValidationState.error)) ∧
    (state ≠ some InstallState.installed → isValid state v = false) := by
  constructor
  · simp [isValid, InstallValidation.hasIssues, and_assoc]
  · intro h
    simp [isValid, h]

/-- C1 witness: a record in state started is not valid even with an issue-free
validation record. -/
theorem isValid_iff_installed_and_no_error_field_witness :
    isValid (some InstallState.started)
      { inProgress := false, installState := some InstallState.started } = false :=
  (isValid_iff_installed_and_no_error_field (some InstallState.started)
    { inProgress := false, installState := some InstallState.started }).2 (by decide)

/-- C2 counterexample: on a snapshot whose base path is undefined, validate
reports basePath error but leaves venvDirectory, pythonInterpreter, uv and
pythonPackages unset (none); none of them carries the value skipped, contrary
to the claim. -/
theorem validate_basePath_error_not_skipped_cex :
    ComfyInstallation.validate emptySystemEnv instInstalled =
      Except.ok (instInstalled, vEmptyInstalled) ∧
    vEmptyInstalled.basePath = some ValidationState.error ∧
    vEmptyInstalled.venvDirectory = none ∧
    vEmptyInstalled.venvDirectory ≠ some ValidationState.skipped ∧
    vEmptyInstalled.pythonInterpreter ≠ some ValidationState.skipped ∧
    vEmptyInstalled.uv ≠ some ValidationState.skipped ∧
    vEmptyInstalled.pythonPackages ≠ some ValidationState.skipped := by
  refine ⟨rfl, rfl, rfl, ?_, ?_, ?_, ?_⟩ <;> decide

/-- C2 amended: for every validate run in which the base path is undefined or
inaccessible, the basePath field of the result is error and the gated fields
venvDirectory, pythonInterpreter, uv and pythonPackages are left unset (none,
rendered as not-run rather than error); in particular none of them is error. -/
theorem validate_basePath_error_gated_checks_unset (env : SystemEnv)
    (inst inst' : ComfyInstallation) (v : InstallValidation)
    (h : ComfyInstallation.validate env inst = .ok (inst', v))
    (hbp : v.basePath = some ValidationState.error) :
    v.venvDirectory = none ∧ v.pythonInterpreter = none ∧ v.uv = none ∧
      v.pythonPackages = none := by
  cases hr : env.readBasePath with
  | success path =>
    simp only [ComfyInstallation.validate, ComfyInstallation.loadBasePath, hr,
      Except.bind, bind, pure, Except.ok.injEq, Prod.mk.injEq] at h
    obtain ⟨-, rfl⟩ := h
    by_cases hpa : env.pathAccessible path
    · by_cases hv : env.venvExists (VirtualEnvironment.venvPath
        { basePath := path, device := (inst.setBasePath path).device })
      · by_cases huv : env.canExecute (VirtualEnvironment.uvPath env.isWin32
          { basePath := path, device := (inst.setBasePath path).device })
        · simp [hpa, hv, huv] at hbp
        · simp [hpa, hv, huv] at hbp
      · simp [hpa, hv] at hbp
    · simp [hpa]
  | invalid =>
    simp only [ComfyInstallation.validate, ComfyInstallation.loadBasePath, hr,
      Except.bind, bind, pure, Except.ok.injEq, Prod.mk.injEq] at h
    obtain ⟨-, rfl⟩ := h
    exact ⟨rfl, rfl, rfl, rfl⟩
  | notFound =>
    simp only [ComfyInstallation.validate, ComfyInstallation.loadBasePath, hr,
      Except.bind, bind, pure, Except.ok.injEq, Prod.mk.injEq] at h
    obtain ⟨-, rfl⟩ := h
    exact ⟨rfl, rfl, rfl, rfl⟩
  | error =>
    simp [ComfyInstallation.validate, ComfyInstallation.loadBasePath, hr,
      Except.bind, bind] at h

/-- C2 amended witness: concrete run with an undefined base path. -/
theorem validate_basePath_error_gated_checks_unset_witness :
    vEmptyInstalled.venvDirectory = none ∧ vEmptyInstalled.pythonInterpreter = none ∧
      vEmptyInstalled.uv = none ∧ vEmptyInstalled.pythonPackages = none :=
  validate_basePath_error_gated_checks_unset emptySystemEnv instInstalled
    instInstalled vEmptyInstalled rfl rfl

/-- C3: every validate call that returns performs the git check and the
vcRedist check regardless of the outcome of the base path and environment
checks, recording the outcome of each probe, and the final record has
inProgress false. -/
theorem validate_always_runs_git_vcRedist_and_completes (env : SystemEnv)
    (inst inst' : ComfyInstallation) (v : InstallValidation)
    (h : ComfyInstallation.validate env inst = .ok (inst', v)) :
    v.git = some (if env.gitHelpOk then ValidationState.ok else ValidationState.error) ∧
    v.vcRedist = some (if env.isWin32 then
      (if env.vcRedistDllAccessible then ValidationState.ok else ValidationState.error)
      else ValidationState.skipped) ∧
    v.inProgress = false := by
  cases hr : env.readBasePath with
  | success path =>
    simp only [ComfyInstallation.validate, ComfyInstallation.loadBasePath, hr,
      Except.bind, bind, pure, Except.ok.injEq, Prod.mk.injEq] at h
    obtain ⟨-, rfl⟩ := h
    exact ⟨rfl, rfl, rfl⟩
  | invalid =>
    simp only [ComfyInstallation.validate, ComfyInstallation.loadBasePath, hr,
      Except.bind, bind, pure, Except.ok.injEq, Prod.mk.injEq] at h
    obtain ⟨-, rfl⟩ := h
    exact ⟨rfl, rfl, rfl⟩
  | notFound =>
    simp only [ComfyInstallation.validate, ComfyInstallation.loadBasePath, hr,
      Except.bind, bind, pure, Except.ok.injEq, Prod.mk.injEq] at h
    obtain ⟨-, rfl⟩ := h
    exact ⟨rfl, rfl, rfl⟩
  | error =>
    simp [ComfyInstallation.validate, ComfyInstallation.loadBasePath, hr,
      Except.bind, bind] at h

/-- C3 witness: on the empty snapshot the base path check fails, yet the final
record carries outcomes for git and vcRedist and has inProgress false. -/
theorem validate_always_runs_git_vcRedist_and_completes_witness :
    vEmptyInstalled.git =
      some (if emptySystemEnv.gitHelpOk then ValidationState.ok else ValidationState.error) ∧
    vEmptyInstalled.vcRedist = some (if emptySystemEnv.isWin32 then
      (if emptySystemEnv.vcRedistDllAccessible then ValidationState.ok else ValidationState.error)
      else ValidationState.skipped) ∧
    vEmptyInstalled.inProgress = false :=
  validate_always_runs_git_vcRedist_and_completes emptySystemEnv instInstalled
    instInstalled vEmptyInstalled rfl

/-- C5: two consecutive validate calls against the same host snapshot return
the same installation object and an identical validation record: the second
run, started from the installation the first run returned, reproduces the
first result exactly. -/
theorem validate_idempotent (env : SystemEnv) (inst inst₁ : ComfyInstallation)
    (v₁ : InstallValidation)
    (h : ComfyInstallation.validate env inst = .ok (inst₁, v₁)) :
    ComfyInstallation.validate env inst₁ = .ok (inst₁, v₁) := by
  cases hr : env.readBasePath with
  | success path =>
    simp only [ComfyInstallation.validate, ComfyInstallation.loadBasePath, hr,
      Except.bind, bind, pure, Except.ok.injEq, Prod.mk.injEq] at h ⊢
    obtain ⟨rfl, rfl⟩ := h
    rfl
  | invalid =>
    simp only [ComfyInstallation.validate, ComfyInstallation.loadBasePath, hr,
      Except.bind, bind, pure, Except.ok.injEq, Prod.mk.injEq] at h ⊢
    obtain ⟨rfl, rfl⟩ := h
    rfl
  | notFound =>
    simp only [ComfyInstallation.validate, ComfyInstallation.loadBasePath, hr,
      Except.bind, bind, pure, Except.ok.injEq, Prod.mk.injEq] at h ⊢
    obtain ⟨rfl, rfl⟩ := h
    rfl
  | error =>
    simp [ComfyInstallation.validate, ComfyInstallation.loadBasePath, hr,
      Except.bind, bind] at h

/-- C5 witness: a run that rewrites the stored base path from the config still
reproduces itself when validate is re-run on its result. -/
theorem validate_idempotent_witness :
    ComfyInstallation.validate baseOnlySystemEnv instFreshMoved =
      .ok (instFreshMoved, vBaseOnly) :=
  validate_idempotent baseOnlySystemEnv instFresh instFreshMoved vBaseOnly rfl

/-- C9: for every installation reachable by construction and base path
assignment (the only operations in the sources that change basePath or device),
the held virtual environment reflects the current basePath and device, and its
derived executable paths agree with a fresh environment built from the current
fields; moreover a returning validate call yields a reachable installation
again. -/
theorem virtualEnvironment_reflects_basePath_and_device (inst : ComfyInstallation)
    (h : ReachableInstallation inst) :
    (inst.virtualEnvironment.basePath = inst.basePath ∧
      inst.virtualEnvironment.device = inst.device ∧
      ∀ isWin32 : Bool,
        inst.virtualEnvironment.pythonInterpreterPath isWin32 =
          VirtualEnvironment.pythonInterpreterPath isWin32
            { basePath := inst.basePath, device := inst.device } ∧
        inst.virtualEnvironment.uvPath isWin32 =
          VirtualEnvironment.uvPath isWin32
            { basePath := inst.basePath, device := inst.device }) ∧
    ∀ env inst' v, ComfyInstallation.validate env inst = .ok (inst', v) →
      ReachableInstallation inst' := by
  constructor
  · induction h with
    | created state basePath device => exact ⟨rfl, rfl, fun _ => ⟨rfl, rfl⟩⟩
    | assignedBasePath inst value _ _ => exact ⟨rfl, rfl, fun _ => ⟨rfl, rfl⟩⟩
  · intro env inst' v hv
    cases hr : env.readBasePath with
    | success path =>
      simp only [ComfyInstallation.validate, ComfyInstallation.loadBasePath, hr,
        Except.bind, bind, pure, Except.ok.injEq, Prod.mk.injEq] at hv
      obtain ⟨rfl, -⟩ := hv
      exact .assignedBasePath inst path h
    | invalid =>
      simp only [ComfyInstallation.validate, ComfyInstallation.loadBasePath, hr,
        Except.bind, bind, pure, Except.ok.injEq, Prod.mk.injEq] at hv
      obtain ⟨rfl, -⟩ := hv
      exact h
    | notFound =>
      simp only [ComfyInstallation.validate, ComfyInstallation.loadBasePath, hr,
        Except.bind, bind, pure, Except.ok.injEq, Prod.mk.injEq] at hv
      obtain ⟨rfl, -⟩ := hv
      exact h
    | error =>
      simp [ComfyInstallation.validate, ComfyInstallation.loadBasePath, hr,
        Except.bind, bind] at hv

/-- C9 witness: a freshly constructed installation carries an environment built
from its base path and device. -/
theorem virtualEnvironment_reflects_basePath_and_device_witness :
    ((ComfyInstallation.create (some InstallState.started) "/bp"
        (some TorchDeviceType.cpu)).virtualEnvironment.basePath =
      (ComfyInstallation.create (some InstallState.started) "/bp"
        (some TorchDeviceType.cpu)).basePath ∧
      (ComfyInstallation.create (some InstallState.started) "/bp"
        (some TorchDeviceType.cpu)).virtualEnvironment.device =
      (ComfyInstallation.create (some InstallState.started) "/bp"
        (some TorchDeviceType.cpu)).device ∧
      ∀ isWin32 : Bool,
        (ComfyInstallation.create (some InstallState.started) "/bp"
            (some TorchDeviceType.cpu)).virtualEnvironment.pythonInterpreterPath isWin32 =
          VirtualEnvironment.pythonInterpreterPath isWin32
            { basePath := (ComfyInstallation.create (some InstallState.started) "/bp"
                (some TorchDeviceType.cpu)).basePath,
              device := (ComfyInstallation.create (some InstallState.started) "/bp"
                (some TorchDeviceType.cpu)).device } ∧
        (ComfyInstallation.create (some InstallState.started) "/bp"
            (some TorchDeviceType.cpu)).virtualEnvironment.uvPath isWin32 =
          VirtualEnvironment.uvPath isWin32
            { basePath := (ComfyInstallation.create (some InstallState.started) "/bp"
                (some TorchDeviceType.cpu)).basePath,
              device := (ComfyInstallation.create (some InstallState.started) "/bp"
                (some TorchDeviceType.cpu)).device }) ∧
    ∀ env inst' v,
      ComfyInstallation.validate env (ComfyInstallation.create
        (some InstallState.started) "/bp" (some TorchDeviceType.cpu)) = .ok (inst', v) →
      ReachableInstallation inst' :=
  virtualEnvironment_reflects_basePath_and_device
    (ComfyInstallation.create (some InstallState.started) "/bp" (some TorchDeviceType.cpu))
    (.created (some InstallState.started) "/bp" (some TorchDeviceType.cpu))

/-- C4: for every persisted config lacking a recorded state, fromConfig returns
none and ensureInstalled routes to the fresh-install flow; the persisted state
after that flow is installed exactly when the hardware probe, renderer load,
option receipt and the wizard steps (directory creation, settings
initialization, model-path configuration) all complete without error; when any
step fails the persisted state remains started and no installation is
returned. -/
theorem ensureInstalled_no_state_routes_fresh_install (config : DesktopConfig)
    (fe : FreshInstallEnv) (env : SystemEnv)
    (h : config.installState = none) :
    ComfyInstallation.fromConfig config = none ∧
    ensureInstalled fe env config = freshInstall fe config ∧
    ((freshInstall fe config).1.installState = some InstallState.installed ↔
      freshInstallSucceeds fe) ∧
    (¬ freshInstallSucceeds fe →
      (freshInstall fe config).1.installState = some InstallState.started ∧
      ∀ installation, (freshInstall fe config).2 ≠ .ok installation) := by
  have hfc : ComfyInstallation.fromConfig config = none := by
    simp [ComfyInstallation.fromConfig, h]
  refine ⟨hfc, by simp [ensureInstalled, hfc], ?_⟩
  cases hh : fe.hardware with
  | error e => simp [freshInstall, hh, freshInstallSucceeds]
  | ok hardware =>
    cases hl : fe.loadRenderer with
    | error e => simp [freshInstall, hh, hl, freshInstallSucceeds]
    | ok u =>
      cases ho : fe.installOptions with
      | none => simp [freshInstall, hh, hl, ho, freshInstallSucceeds]
      | some options =>
        cases hwz : installWizardInstall fe options with
        | error e => simp [freshInstall, hh, hl, ho, hwz, freshInstallSucceeds]
        | ok u2 => simp [freshInstall, hh, hl, ho, hwz, freshInstallSucceeds]

/-- C4 witness: an empty config routes to fresh install; with every step
succeeding the persisted state ends as installed. -/
theorem ensureInstalled_no_state_routes_fresh_install_witness :
    ComfyInstallation.fromConfig {} = none ∧
    ensureInstalled allOkFreshInstallEnv emptySystemEnv {} =
      freshInstall allOkFreshInstallEnv {} ∧
    ((freshInstall allOkFreshInstallEnv {}).1.installState = some InstallState.installed ↔
      freshInstallSucceeds allOkFreshInstallEnv) ∧
    (¬ freshInstallSucceeds allOkFreshInstallEnv →
      (freshInstall allOkFreshInstallEnv {}).1.installState = some InstallState.started ∧
      ∀ installation,
        (freshInstall allOkFreshInstallEnv {}).2 ≠ .ok installation) :=
  ensureInstalled_no_state_routes_fresh_install {} allOkFreshInstallEnv emptySystemEnv rfl

end ComfyDesktop
